import Mathlib

/-
Shallow embedding of the Web3RSVP Sway contract (rsvpContract/src/main.sw and
event_platform.sw, as given in the repository README).

Modelling choices:
* u64 values are modelled as Nat.  The FuelVM traps (reverts the whole call)
  on u64 overflow, so no wraparound is observable; the counters here only
  ever increase by 1 per call.
* Identity mirrors the Sway enum (Address | ContractId), with b256 payloads
  modelled as Nat.  A zeroed storage slot decodes as Address 0.
* str[10] is modelled as String; a zeroed storage slot decodes as the empty
  label.  The claims under study do not depend on the fixed-width encoding.
* StorageMap.get in the beta-2 toolchain performs no existence check: a
  missing key yields the zero-initialized value of the value type.  The map
  is an association list where insert prepends and get returns the first
  binding, or the zeroed Event when no binding exists.
* require(cond, err) reverts the whole transaction: the call returns an
  error and no state change is delivered.  The embedding returns
  Except, and the step function keeps the pre-state on error.
* transfer is the external value-transfer primitive (std::token).  Its code
  is not part of this repository; per the spec it "moves payment_amount of
  payment_asset to a target identity and reports success/failure", and a
  failure must abort the call.  It is threaded in as an oracle
  (transferOk); when it reports failure the call aborts with TransferFailed
  before any mutation, and on success the performed transfer is part of the
  result so its amount, asset and recipient can be observed.
-/

/-- Identity, mirroring Sway std::identity::Identity. -/
inductive Identity where
  | Address (bits : Nat)
  | ContractId (bits : Nat)
deriving DecidableEq

/-- Event record, from event_platform.sw. -/
structure Event where
  unique_id : Nat
  max_capacity : Nat
  deposit : Nat
  owner : Identity
  name : String
  num_of_rsvps : Nat
deriving DecidableEq

/-- Zero-initialized Event: what a StorageMap read of a missing key yields. -/
def defaultEvent : Event :=
  { unique_id := 0, max_capacity := 0, deposit := 0,
    owner := Identity.Address 0, name := "", num_of_rsvps := 0 }

/-- The contract storage block: events map and event_id_counter. -/
structure RegistryState where
  events : List (Nat × Event)
  event_id_counter : Nat
deriving DecidableEq

/-- Registry state at deployment: empty map, counter 0. -/
def initialState : RegistryState := { events := [], event_id_counter := 0 }

/-- StorageMap.get: first binding for the key, or the zeroed value when the
key is absent (the beta-2 toolchain performs no existence check). -/
def mapGet (m : List (Nat × Event)) (key : Nat) : Event :=
  match m with
  | [] => defaultEvent
  | (k, v) :: rest => if k = key then v else mapGet rest key

/-- StorageMap.insert: the new binding shadows any earlier one. -/
def mapInsert (m : List (Nat × Event)) (key : Nat) (v : Event) :
    List (Nat × Event) :=
  (key, v) :: m

/-- BASE_ASSET_ID from std::constants (the all-zero asset id). -/
def BASE_ASSET_ID : Nat := 0

/-- Error enum from main.sw. -/
inductive InvalidRSVPError where
  | IncorrectAssetId
  | NotEnoughTokens
  | InvalidEventID
deriving DecidableEq

/-- Outcome of a failed rsvp call: either a require with an
InvalidRSVPError reason, or an abort raised by the transfer primitive. -/
inductive RsvpError where
  | Require (e : InvalidRSVPError)
  | TransferFailed
deriving DecidableEq

/-- A performed value transfer: amount, asset and recipient handed to the
transfer primitive. -/
structure TransferCall where
  amount : Nat
  asset_id : Nat
  recipient : Identity
deriving DecidableEq

/-- create_event from main.sw.  Reads the counter, builds the record with
the caller as owner and num_of_rsvps 0, inserts it at the counter value,
increments the counter, and returns the record re-read from storage at
event_id_counter - 1. -/
def create_event (s : RegistryState) (sender : Identity)
    (capacity price : Nat) (event_name : String) : RegistryState × Event :=
  let campaign_id := s.event_id_counter
  let new_event : Event :=
    { unique_id := campaign_id, max_capacity := capacity, deposit := price,
      owner := sender, name := event_name, num_of_rsvps := 0 }
  let events1 := mapInsert s.events campaign_id new_event
  let counter1 := s.event_id_counter + 1
  let selectedEvent := mapGet events1 (counter1 - 1)
  ({ events := events1, event_id_counter := counter1 }, selectedEvent)

/-- rsvp from main.sw.  The sender is read (msg_sender) but unused; asset_id
and amount are the attached payment (msg_asset_id / msg_amount).  The three
require checks appear in source order; then transfer(amount, asset_id,
selected_event.owner) runs, and only after it succeeds is num_of_rsvps
incremented and the record written back. -/
def rsvp (s : RegistryState) (_sender : Identity) (asset_id amount : Nat)
    (event_id : Nat) (transferOk : Nat → Nat → Identity → Bool) :
    Except RsvpError (RegistryState × Event × TransferCall) :=
  let selected_event := mapGet s.events event_id
  if selected_event.unique_id < s.event_id_counter then
    if asset_id = BASE_ASSET_ID then
      if selected_event.deposit ≤ amount then
        if transferOk amount asset_id selected_event.owner then
          let updated :=
            { selected_event with
                num_of_rsvps := selected_event.num_of_rsvps + 1 }
          Except.ok
            ({ events := mapInsert s.events event_id updated,
               event_id_counter := s.event_id_counter },
             updated,
             { amount := amount, asset_id := asset_id,
               recipient := selected_event.owner })
        else Except.error RsvpError.TransferFailed
      else Except.error (RsvpError.Require InvalidRSVPError.NotEnoughTokens)
    else Except.error (RsvpError.Require InvalidRSVPError.IncorrectAssetId)
  else Except.error (RsvpError.Require InvalidRSVPError.InvalidEventID)

/-- get_rsvp from main.sw: a storage read with no existence check. -/
def get_rsvp (s : RegistryState) (event_id : Nat) : Event :=
  mapGet s.events event_id

/-- One external call into the contract. -/
inductive Op where
  | createOp (sender : Identity) (capacity price : Nat) (event_name : String)
  | rsvpOp (sender : Identity) (asset_id amount event_id : Nat)
      (transferOk : Nat → Nat → Identity → Bool)
  | getOp (event_id : Nat)

/-- State delivered by one call: a reverted call leaves the pre-state. -/
def step (s : RegistryState) : Op → RegistryState
  | Op.createOp sender c p n => (create_event s sender c p n).1
  | Op.rsvpOp sender a amt eid tOk =>
      match rsvp s sender a amt eid tOk with
      | Except.ok (s1, _, _) => s1
      | Except.error _ => s
  | Op.getOp _ => s

/-- State after a sequence of calls. -/
def run (s : RegistryState) : List Op → RegistryState
  | [] => s
  | op :: ops => run (step s op) ops

/-- A transfer oracle that always succeeds. -/
def alwaysOk : Nat → Nat → Identity → Bool := fun _ _ _ => true

/-- A transfer oracle that always reports failure. -/
def alwaysFail : Nat → Nat → Identity → Bool := fun _ _ _ => false

/-- A sample creator identity. -/
def alice : Identity := Identity.Address 1

/-- A sample registrant identity. -/
def bob : Identity := Identity.Address 2

/-- State after one create_event(50, 10, "Meetup") call by alice. -/
def demoState1 : RegistryState :=
  (create_event initialState alice 50 10 "Meetup").1

/-- State after two calls: create_event(50, 10, "Meetup") by alice, then
rsvp(99) by bob with 10 base-asset units attached.  Event id 99 was never
issued (only id 0 was). -/
def demoOps : List Op :=
  [Op.createOp alice 50 10 "Meetup",
   Op.rsvpOp bob BASE_ASSET_ID 10 99 alwaysOk]

/-- State after one create_event(0, 0, "Party") call by alice: an event
with max_capacity 0, so any registration exceeds the capacity. -/
def demoStateCap0 : RegistryState :=
  (create_event initialState alice 0 0 "Party").1

/-- The fields of an Event other than num_of_rsvps agree. -/
def sameImmutableFields (a b : Event) : Prop :=
  a.unique_id = b.unique_id ∧ a.owner = b.owner ∧ a.name = b.name ∧
  a.deposit = b.deposit ∧ a.max_capacity = b.max_capacity

/-- Reading back the binding just inserted gives the inserted value. -/
lemma mapGet_mapInsert_self (m : List (Nat × Event)) (key : Nat) (v : Event) :
    mapGet (mapInsert m key v) key = v := by
  simp [mapGet, mapInsert]

/-- Reading any other key is unaffected by an insert. -/
lemma mapGet_mapInsert_ne (m : List (Nat × Event)) (key k : Nat) (v : Event)
    (h : k ≠ key) : mapGet (mapInsert m key v) k = mapGet m k := by
  simp only [mapGet, mapInsert]
  rw [if_neg fun hk => h hk.symm]

/-- A key bound by no entry of the map reads as the zeroed Event. -/
lemma mapGet_eq_default (m : List (Nat × Event)) (key : Nat)
    (h : ∀ p ∈ m, p.1 ≠ key) : mapGet m key = defaultEvent := by
  induction m with
  | nil => rfl
  | cons p rest ih =>
      obtain ⟨k, v⟩ := p
      have hk : k ≠ key := h (k, v) (List.mem_cons_self _ _)
      simp only [mapGet, if_neg hk]
      exact ih fun q hq => h q (List.mem_cons_of_mem _ hq)

/-- When all four gates pass, rsvp succeeds with the incremented record
written back under event_id, returned, and the whole amount handed to the
transfer primitive for the stored owner. -/
lemma rsvp_eq_ok (s : RegistryState) (sd : Identity) (a amt eid : Nat)
    (tOk : Nat → Nat → Identity → Bool)
    (h1 : (mapGet s.events eid).unique_id < s.event_id_counter)
    (h2 : a = BASE_ASSET_ID)
    (h3 : (mapGet s.events eid).deposit ≤ amt)
    (h4 : tOk amt a (mapGet s.events eid).owner = true) :
    rsvp s sd a amt eid tOk =
      Except.ok
        ({ events := mapInsert s.events eid
             { mapGet s.events eid with
                 num_of_rsvps := (mapGet s.events eid).num_of_rsvps + 1 },
           event_id_counter := s.event_id_counter },
         { mapGet s.events eid with
             num_of_rsvps := (mapGet s.events eid).num_of_rsvps + 1 },
         { amount := amt, asset_id := a,
           recipient := (mapGet s.events eid).owner }) := by
  subst h2
  simp [rsvp, h1, h3, h4]

/-- When the fetched record's unique_id is not below the counter, rsvp
reverts with InvalidEventID whatever the payment looks like. -/
lemma rsvp_eq_invalid (s : RegistryState) (sd : Identity) (a amt eid : Nat)
    (tOk : Nat → Nat → Identity → Bool)
    (h1 : ¬ (mapGet s.events eid).unique_id < s.event_id_counter) :
    rsvp s sd a amt eid tOk =
      Except.error (RsvpError.Require InvalidRSVPError.InvalidEventID) := by
  simp [rsvp, h1]

/-- With the id gate passed but a non-base asset attached, rsvp reverts with
IncorrectAssetId whatever the amount, so the asset gate precedes the amount
gate. -/
lemma rsvp_eq_wrong_asset (s : RegistryState) (sd : Identity)
    (a amt eid : Nat) (tOk : Nat → Nat → Identity → Bool)
    (h1 : (mapGet s.events eid).unique_id < s.event_id_counter)
    (h2 : a ≠ BASE_ASSET_ID) :
    rsvp s sd a amt eid tOk =
      Except.error (RsvpError.Require InvalidRSVPError.IncorrectAssetId) := by
  simp [rsvp, h1, h2]

/-- With id and asset gates passed but the amount below the deposit, rsvp
reverts with NotEnoughTokens. -/
lemma rsvp_eq_not_enough (s : RegistryState) (sd : Identity)
    (a amt eid : Nat) (tOk : Nat → Nat → Identity → Bool)
    (h1 : (mapGet s.events eid).unique_id < s.event_id_counter)
    (h2 : a = BASE_ASSET_ID)
    (h3 : amt < (mapGet s.events eid).deposit) :
    rsvp s sd a amt eid tOk =
      Except.error (RsvpError.Require InvalidRSVPError.NotEnoughTokens) := by
  simp [rsvp, h1, h2, Nat.not_le.mpr h3]

/-- With the three require gates passed but the transfer primitive reporting
failure, rsvp aborts with TransferFailed. -/
lemma rsvp_eq_transfer_failed (s : RegistryState) (sd : Identity)
    (a amt eid : Nat) (tOk : Nat → Nat → Identity → Bool)
    (h1 : (mapGet s.events eid).unique_id < s.event_id_counter)
    (h2 : a = BASE_ASSET_ID)
    (h3 : (mapGet s.events eid).deposit ≤ amt)
    (h4 : tOk amt a (mapGet s.events eid).owner = false) :
    rsvp s sd a amt eid tOk = Except.error RsvpError.TransferFailed := by
  subst h2
  simp [rsvp, h1, h3, h4]

/-- Inversion: any successful rsvp has exactly the shape produced by
rsvp_eq_ok. -/
lemma rsvp_ok_inv (s : RegistryState) (sd : Identity) (a amt eid : Nat)
    (tOk : Nat → Nat → Identity → Bool) (s1 : RegistryState) (ev : Event)
    (tr : TransferCall)
    (h : rsvp s sd a amt eid tOk = Except.ok (s1, ev, tr)) :
    ev = { mapGet s.events eid with
             num_of_rsvps := (mapGet s.events eid).num_of_rsvps + 1 } ∧
    s1 = { events := mapInsert s.events eid ev,
           event_id_counter := s.event_id_counter } ∧
    tr = { amount := amt, asset_id := a,
           recipient := (mapGet s.events eid).owner } := by
  by_cases h1 : (mapGet s.events eid).unique_id < s.event_id_counter
  · by_cases h2 : a = BASE_ASSET_ID
    · by_cases h3 : (mapGet s.events eid).deposit ≤ amt
      · by_cases h4 : tOk amt a (mapGet s.events eid).owner = true
        · rw [rsvp_eq_ok s sd a amt eid tOk h1 h2 h3 h4] at h
          simp only [Except.ok.injEq, Prod.mk.injEq] at h
          obtain ⟨hs, hev, htr⟩ := h
          subst hs
          subst hev
          subst htr
          exact ⟨rfl, rfl, rfl⟩
        · rw [rsvp_eq_transfer_failed s sd a amt eid tOk h1 h2 h3
            (Bool.not_eq_true _ ▸ h4)] at h
          exact absurd h (by simp)
      · rw [rsvp_eq_not_enough s sd a amt eid tOk h1 h2 (Nat.not_le.mp h3)]
          at h
        exact absurd h (by simp)
    · rw [rsvp_eq_wrong_asset s sd a amt eid tOk h1 h2] at h
      exact absurd h (by simp)
  · rw [rsvp_eq_invalid s sd a amt eid tOk h1] at h
    exact absurd h (by simp)

lemma sameImmutableFields_refl (a : Event) : sameImmutableFields a a :=
  ⟨rfl, rfl, rfl, rfl, rfl⟩

lemma sameImmutableFields_trans {a b c : Event}
    (h1 : sameImmutableFields a b) (h2 : sameImmutableFields b c) :
    sameImmutableFields a c := by
  obtain ⟨u1, o1, n1, d1, m1⟩ := h1
  obtain ⟨u2, o2, n2, d2, m2⟩ := h2
  exact ⟨u1.trans u2, o1.trans o2, n1.trans n2, d1.trans d2, m1.trans m2⟩

/-- One call keeps every already-issued id below the counter and leaves the
immutable fields of its record untouched: create_event only writes the fresh
key event_id_counter, rsvp rewrites only num_of_rsvps of the key it touches,
and get_rsvp writes nothing. -/
lemma step_preserves_created (s : RegistryState) (op : Op) (k : Nat)
    (hk : k < s.event_id_counter) :
    k < (step s op).event_id_counter ∧
    sameImmutableFields (mapGet (step s op).events k) (mapGet s.events k) := by
  cases op with
  | createOp sd c p n =>
      refine ⟨?_, ?_⟩
      · simpa [step, create_event] using Nat.lt_succ_of_lt hk
      · have hne : k ≠ s.event_id_counter := Nat.ne_of_lt hk
        simp only [step, create_event]
        rw [mapGet_mapInsert_ne _ _ _ _ hne]
        exact sameImmutableFields_refl _
  | rsvpOp sd a amt eid tOk =>
      cases hr : rsvp s sd a amt eid tOk with
      | error e =>
          refine ⟨?_, ?_⟩
          · simpa [step, hr] using hk
          · simp only [step, hr]
            exact sameImmutableFields_refl _
      | ok val =>
          obtain ⟨s1, ev, tr⟩ := val
          obtain ⟨hev, hs1, -⟩ := rsvp_ok_inv s sd a amt eid tOk s1 ev tr hr
          subst hs1
          refine ⟨?_, ?_⟩
          · simpa [step, hr] using hk
          · simp only [step, hr]
            by_cases hke : k = eid
            · subst hke
              rw [mapGet_mapInsert_self, hev]
              exact ⟨rfl, rfl, rfl, rfl, rfl⟩
            · rw [mapGet_mapInsert_ne _ _ _ _ hke]
              exact sameImmutableFields_refl _
  | getOp eid =>
      exact ⟨hk, sameImmutableFields_refl _⟩

/-- Any sequence of calls keeps an already-issued id below the counter and
leaves the immutable fields of its record untouched. -/
lemma run_preserves_created (ops : List Op) :
    ∀ s : RegistryState, ∀ k : Nat, k < s.event_id_counter →
    k < (run s ops).event_id_counter ∧
    sameImmutableFields (mapGet (run s ops).events k) (mapGet s.events k) := by
  induction ops with
  | nil => exact fun s k hk => ⟨hk, sameImmutableFields_refl _⟩
  | cons op ops ih =>
      intro s k hk
      obtain ⟨hk1, hf1⟩ := step_preserves_created s op k hk
      obtain ⟨hk2, hf2⟩ := ih (step s op) k hk1
      exact ⟨hk2, sameImmutableFields_trans hf2 hf1⟩

/-- C1: the claim says rsvp on a never-issued event_id (event_id >=
event_id_counter) reverts with InvalidEventID and changes nothing.  The code
instead validates mapGet(events, event_id).unique_id < event_id_counter, and
a missing key reads as the zeroed record with unique_id = 0, so once any
event exists the check passes.  Concretely: after one create_event the
counter is 1, yet rsvp(99) with 10 base-asset units succeeds, hands the 10
units to the zero address (the zeroed record's owner), and inserts a phantom
record with num_of_rsvps = 1 under key 99. -/
theorem rsvp_unissued_id_accepted :
    demoState1.event_id_counter = 1 ∧
    rsvp demoState1 bob BASE_ASSET_ID 10 99 alwaysOk =
      Except.ok
        ({ events := mapInsert demoState1.events 99
             { defaultEvent with num_of_rsvps := 1 },
           event_id_counter := 1 },
         { defaultEvent with num_of_rsvps := 1 },
         { amount := 10, asset_id := BASE_ASSET_ID,
           recipient := Identity.Address 0 }) :=
  ⟨rfl, rfl⟩

/-- C2: create_event assigns id = event_id_counter, builds the record with
the caller as owner, num_of_rsvps 0 and the given capacity, deposit and
name, inserts it under that id, increments the counter by exactly 1, and
returns the full new record (re-read from storage) including the assigned
id. -/
theorem create_event_spec (s : RegistryState) (sender : Identity)
    (capacity price : Nat) (event_name : String) :
    (create_event s sender capacity price event_name).2 =
      { unique_id := s.event_id_counter, max_capacity := capacity,
        deposit := price, owner := sender, name := event_name,
        num_of_rsvps := 0 } ∧
    (create_event s sender capacity price event_name).1.event_id_counter =
      s.event_id_counter + 1 ∧
    (create_event s sender capacity price event_name).1.events =
      mapInsert s.events s.event_id_counter
        (create_event s sender capacity price event_name).2 ∧
    mapGet (create_event s sender capacity price event_name).1.events
        s.event_id_counter =
      (create_event s sender capacity price event_name).2 := by
  refine ⟨?_, rfl, ?_, ?_⟩ <;>
    simp [create_event, mapGet_mapInsert_self, Nat.add_sub_cancel]

/-- C3: the claim says that after any call sequence from the initial state,
every key of the events map is strictly below event_id_counter (and ids go
0, 1, 2, ...).  The unguarded rsvp path breaks the key bound: after one
create_event (counter 1) a successful rsvp(99) inserts key 99 into the map
while the counter stays 1, so the map holds a key not below the counter. -/
theorem run_phantom_key_breaks_bound :
    (run initialState demoOps).event_id_counter = 1 ∧
    (99, { defaultEvent with num_of_rsvps := 1 }) ∈
      (run initialState demoOps).events ∧
    ¬ 99 < (run initialState demoOps).event_id_counter := by
  refine ⟨rfl, ?_, by decide⟩
  decide

/-- C4: on an event whose stored record passes the id gate, rsvp with a
non-base asset reverts with IncorrectAssetId whatever the amount, rsvp with
the base asset but an amount below the deposit reverts with NotEnoughTokens,
and a failed id gate reverts with InvalidEventID before either payment gate
is consulted; every revert delivers the unchanged pre-state.  (The spec
names these WrongAsset, InsufficientPayment and InvalidEventId.) -/
theorem rsvp_precondition_order (s : RegistryState) (sd : Identity)
    (a amt eid : Nat) (tOk : Nat → Nat → Identity → Bool) :
    (¬ (mapGet s.events eid).unique_id < s.event_id_counter →
      rsvp s sd a amt eid tOk =
        Except.error (RsvpError.Require InvalidRSVPError.InvalidEventID) ∧
      step s (Op.rsvpOp sd a amt eid tOk) = s) ∧
    ((mapGet s.events eid).unique_id < s.event_id_counter →
      a ≠ BASE_ASSET_ID →
      rsvp s sd a amt eid tOk =
        Except.error (RsvpError.Require InvalidRSVPError.IncorrectAssetId) ∧
      step s (Op.rsvpOp sd a amt eid tOk) = s) ∧
    ((mapGet s.events eid).unique_id < s.event_id_counter →
      a = BASE_ASSET_ID → amt < (mapGet s.events eid).deposit →
      rsvp s sd a amt eid tOk =
        Except.error (RsvpError.Require InvalidRSVPError.NotEnoughTokens) ∧
      step s (Op.rsvpOp sd a amt eid tOk) = s) := by
  refine ⟨fun h1 => ?_, fun h1 h2 => ?_, fun h1 h2 h3 => ?_⟩
  · have he := rsvp_eq_invalid s sd a amt eid tOk h1
    exact ⟨he, by simp [step, he]⟩
  · have he := rsvp_eq_wrong_asset s sd a amt eid tOk h1 h2
    exact ⟨he, by simp [step, he]⟩
  · have he := rsvp_eq_not_enough s sd a amt eid tOk h1 h2 h3
    exact ⟨he, by simp [step, he]⟩

/-- Witness for C4: concrete reverts.  On the empty registry any rsvp hits
InvalidEventID; after create_event(50, 10, "Meetup"), asset 1 yields
IncorrectAssetId, and 5 base-asset units (below the 10 deposit) yield
NotEnoughTokens with the state unchanged. -/
theorem rsvp_precondition_order_witness :
    rsvp initialState bob BASE_ASSET_ID 10 5 alwaysOk =
      Except.error (RsvpError.Require InvalidRSVPError.InvalidEventID) ∧
    rsvp demoState1 bob 1 3 0 alwaysOk =
      Except.error (RsvpError.Require InvalidRSVPError.IncorrectAssetId) ∧
    rsvp demoState1 bob BASE_ASSET_ID 5 0 alwaysOk =
      Except.error (RsvpError.Require InvalidRSVPError.NotEnoughTokens) ∧
    step demoState1 (Op.rsvpOp bob BASE_ASSET_ID 5 0 alwaysOk) = demoState1 :=
  ⟨((rsvp_precondition_order initialState bob BASE_ASSET_ID 10 5
      alwaysOk).1 (by decide)).1,
   ((rsvp_precondition_order demoState1 bob 1 3 0
      alwaysOk).2.1 (by decide) (by decide)).1,
   ((rsvp_precondition_order demoState1 bob BASE_ASSET_ID 5 0
      alwaysOk).2.2 (by decide) rfl (by decide)).1,
   ((rsvp_precondition_order demoState1 bob BASE_ASSET_ID 5 0
      alwaysOk).2.2 (by decide) rfl (by decide)).2⟩

/-- C5: when the three gates pass and the transfer succeeds, the transfer
hands the entire attached amount (not just the deposit) to the stored
owner, num_of_rsvps is incremented by exactly 1, the updated record is
written back under event_id (reading the post-state gives it), and the
returned record is the post-increment one. -/
theorem rsvp_success_effects (s : RegistryState) (sd : Identity)
    (a amt eid : Nat) (tOk : Nat → Nat → Identity → Bool)
    (h1 : (mapGet s.events eid).unique_id < s.event_id_counter)
    (h2 : a = BASE_ASSET_ID)
    (h3 : (mapGet s.events eid).deposit ≤ amt)
    (h4 : tOk amt a (mapGet s.events eid).owner = true) :
    rsvp s sd a amt eid tOk =
      Except.ok
        ({ events := mapInsert s.events eid
             { mapGet s.events eid with
                 num_of_rsvps := (mapGet s.events eid).num_of_rsvps + 1 },
           event_id_counter := s.event_id_counter },
         { mapGet s.events eid with
             num_of_rsvps := (mapGet s.events eid).num_of_rsvps + 1 },
         { amount := amt, asset_id := a,
           recipient := (mapGet s.events eid).owner }) ∧
    mapGet (step s (Op.rsvpOp sd a amt eid tOk)).events eid =
      { mapGet s.events eid with
          num_of_rsvps := (mapGet s.events eid).num_of_rsvps + 1 } := by
  have he := rsvp_eq_ok s sd a amt eid tOk h1 h2 h3 h4
  exact ⟨he, by simp [step, he, mapGet_mapInsert_self]⟩

/-- Witness for C5: on the event created by create_event(50, 10, "Meetup"),
rsvp(0) with 10 base-asset units succeeds, transfers all 10 units to alice,
and the record read back has num_of_rsvps 1. -/
theorem rsvp_success_effects_witness :
    rsvp demoState1 bob BASE_ASSET_ID 10 0 alwaysOk =
      Except.ok
        ({ events := mapInsert demoState1.events 0
             { mapGet demoState1.events 0 with
                 num_of_rsvps := (mapGet demoState1.events 0).num_of_rsvps
                   + 1 },
           event_id_counter := demoState1.event_id_counter },
         { mapGet demoState1.events 0 with
             num_of_rsvps := (mapGet demoState1.events 0).num_of_rsvps + 1 },
         { amount := 10, asset_id := BASE_ASSET_ID,
           recipient := (mapGet demoState1.events 0).owner }) ∧
    mapGet (step demoState1 (Op.rsvpOp bob BASE_ASSET_ID 10 0
        alwaysOk)).events 0 =
      { mapGet demoState1.events 0 with
          num_of_rsvps := (mapGet demoState1.events 0).num_of_rsvps + 1 } :=
  rsvp_success_effects demoState1 bob BASE_ASSET_ID 10 0 alwaysOk
    (by decide) rfl (by decide) rfl

/-- C6: transfer and increment are atomic.  The transfer runs before the
increment and the write-back; when the transfer primitive reports failure
the call aborts with TransferFailed, the delivered state is exactly the
pre-state, and reading the event back still gives the old record (no
counter mutation, nothing persisted). -/
theorem rsvp_transfer_failed_atomic (s : RegistryState) (sd : Identity)
    (a amt eid : Nat) (tOk : Nat → Nat → Identity → Bool)
    (h1 : (mapGet s.events eid).unique_id < s.event_id_counter)
    (h2 : a = BASE_ASSET_ID)
    (h3 : (mapGet s.events eid).deposit ≤ amt)
    (h4 : tOk amt a (mapGet s.events eid).owner = false) :
    rsvp s sd a amt eid tOk = Except.error RsvpError.TransferFailed ∧
    step s (Op.rsvpOp sd a amt eid tOk) = s ∧
    get_rsvp (step s (Op.rsvpOp sd a amt eid tOk)) eid = get_rsvp s eid := by
  have he := rsvp_eq_transfer_failed s sd a amt eid tOk h1 h2 h3 h4
  refine ⟨he, ?_, ?_⟩ <;> simp [step, he]

/-- Witness for C6: on the event created by create_event(50, 10, "Meetup"),
a well-formed rsvp whose transfer primitive reports failure aborts with
TransferFailed and leaves the state unchanged. -/
theorem rsvp_transfer_failed_atomic_witness :
    rsvp demoState1 bob BASE_ASSET_ID 10 0 alwaysFail =
      Except.error RsvpError.TransferFailed ∧
    step demoState1 (Op.rsvpOp bob BASE_ASSET_ID 10 0 alwaysFail) =
      demoState1 ∧
    get_rsvp (step demoState1 (Op.rsvpOp bob BASE_ASSET_ID 10 0
        alwaysFail)) 0 =
      get_rsvp demoState1 0 :=
  rsvp_transfer_failed_atomic demoState1 bob BASE_ASSET_ID 10 0 alwaysFail
    (by decide) rfl (by decide) rfl

/-- C7: frame of a successful rsvp and immutability after creation.  Part
one: a successful rsvp returns the fetched record with only num_of_rsvps
changed (incremented), keeps the counter, and a read of any other key is
unchanged.  Part two: for any already-issued id (below the counter), any
further call sequence leaves unique_id, owner, name, deposit and
max_capacity of the record read at that id untouched. -/
theorem rsvp_frame_and_immutability :
    (∀ (s : RegistryState) (sd : Identity) (a amt eid : Nat)
       (tOk : Nat → Nat → Identity → Bool) (s1 : RegistryState) (ev : Event)
       (tr : TransferCall),
       rsvp s sd a amt eid tOk = Except.ok (s1, ev, tr) →
       ev = { mapGet s.events eid with
                num_of_rsvps := (mapGet s.events eid).num_of_rsvps + 1 } ∧
       s1.event_id_counter = s.event_id_counter ∧
       (∀ k, k ≠ eid → mapGet s1.events k = mapGet s.events k)) ∧
    (∀ (s : RegistryState) (ops : List Op) (k : Nat),
       k < s.event_id_counter →
       sameImmutableFields (mapGet (run s ops).events k)
         (mapGet s.events k)) := by
  constructor
  · intro s sd a amt eid tOk s1 ev tr h
    obtain ⟨hev, hs1, -⟩ := rsvp_ok_inv s sd a amt eid tOk s1 ev tr h
    subst hs1
    exact ⟨hev, rfl, fun k hk => mapGet_mapInsert_ne _ _ _ _ hk⟩
  · intro s ops k hk
    exact (run_preserves_created ops s k hk).2

/-- Witness for C7: after create_event(50, 10, "Meetup"), a successful
rsvp(0) leaves the read of key 7 unchanged, and a call sequence containing
that rsvp leaves the immutable fields of event 0 untouched. -/
theorem rsvp_frame_and_immutability_witness :
    mapGet (step demoState1 (Op.rsvpOp bob BASE_ASSET_ID 10 0
        alwaysOk)).events 7 =
      mapGet demoState1.events 7 ∧
    sameImmutableFields
      (mapGet (run demoState1
          [Op.rsvpOp bob BASE_ASSET_ID 10 0 alwaysOk]).events 0)
      (mapGet demoState1.events 0) := by
  constructor
  · exact (rsvp_frame_and_immutability.1 demoState1 bob BASE_ASSET_ID 10 0
      alwaysOk _ _ _ rfl).2.2 7 (by decide)
  · exact rsvp_frame_and_immutability.2 demoState1
      [Op.rsvpOp bob BASE_ASSET_ID 10 0 alwaysOk] 0 (by decide)

/-- C8: get_rsvp is a pure read.  A get_rsvp call delivers the pre-state
unchanged, and a second get_rsvp of the same event_id with no intervening
register or create_event returns the identical record. -/
theorem get_rsvp_pure_read (s : RegistryState) (eid : Nat) :
    step s (Op.getOp eid) = s ∧
    get_rsvp (step s (Op.getOp eid)) eid = get_rsvp s eid :=
  ⟨rfl, rfl⟩

/-- C9: registration is never capped by max_capacity.  The success of rsvp
depends only on the id, asset and amount gates (and the transfer), with no
comparison of num_of_rsvps against max_capacity; in particular, when the
count already reached the capacity a further rsvp still succeeds and pushes
num_of_rsvps strictly past max_capacity. -/
theorem rsvp_ignores_capacity (s : RegistryState) (sd : Identity)
    (amt eid : Nat) (tOk : Nat → Nat → Identity → Bool)
    (h1 : (mapGet s.events eid).unique_id < s.event_id_counter)
    (h3 : (mapGet s.events eid).deposit ≤ amt)
    (h4 : tOk amt BASE_ASSET_ID (mapGet s.events eid).owner = true) :
    rsvp s sd BASE_ASSET_ID amt eid tOk =
      Except.ok
        ({ events := mapInsert s.events eid
             { mapGet s.events eid with
                 num_of_rsvps := (mapGet s.events eid).num_of_rsvps + 1 },
           event_id_counter := s.event_id_counter },
         { mapGet s.events eid with
             num_of_rsvps := (mapGet s.events eid).num_of_rsvps + 1 },
         { amount := amt, asset_id := BASE_ASSET_ID,
           recipient := (mapGet s.events eid).owner }) ∧
    ((mapGet s.events eid).max_capacity ≤
        (mapGet s.events eid).num_of_rsvps →
      (mapGet s.events eid).max_capacity <
        ({ mapGet s.events eid with
             num_of_rsvps := (mapGet s.events eid).num_of_rsvps + 1
           }).num_of_rsvps) :=
  ⟨rsvp_eq_ok s sd BASE_ASSET_ID amt eid tOk h1 rfl h3 h4,
   fun hc => Nat.lt_succ_of_le hc⟩

/-- Witness for C9: on an event with max_capacity 0 (already at capacity
with 0 registrations), rsvp(0) succeeds and the count, 1, exceeds the
capacity. -/
theorem rsvp_ignores_capacity_witness :
    rsvp demoStateCap0 bob BASE_ASSET_ID 0 0 alwaysOk =
      Except.ok
        ({ events := mapInsert demoStateCap0.events 0
             { mapGet demoStateCap0.events 0 with
                 num_of_rsvps :=
                   (mapGet demoStateCap0.events 0).num_of_rsvps + 1 },
           event_id_counter := demoStateCap0.event_id_counter },
         { mapGet demoStateCap0.events 0 with
             num_of_rsvps :=
               (mapGet demoStateCap0.events 0).num_of_rsvps + 1 },
         { amount := 0, asset_id := BASE_ASSET_ID,
           recipient := (mapGet demoStateCap0.events 0).owner }) ∧
    (mapGet demoStateCap0.events 0).max_capacity <
      ({ mapGet demoStateCap0.events 0 with
           num_of_rsvps :=
             (mapGet demoStateCap0.events 0).num_of_rsvps + 1
         }).num_of_rsvps := by
  have h := rsvp_ignores_capacity demoStateCap0 bob 0 0 alwaysOk
    (by decide) (by decide) rfl
  exact ⟨h.1, h.2 (by decide)⟩

/-- C10 counterexample: the claim says a never-issued event_id always reads
back as the zeroed record.  But the unguarded rsvp path can insert a record
under a never-issued key: after create_event (counter 1, only id 0 issued)
and a successful rsvp(99), get_rsvp(99) returns a record with
num_of_rsvps = 1, not the zeroed record, while 99 is still unissued
(counter 1). -/
theorem get_rsvp_unissued_phantom :
    (run initialState demoOps).event_id_counter = 1 ∧
    get_rsvp (run initialState demoOps) 99 =
      { defaultEvent with num_of_rsvps := 1 } ∧
    get_rsvp (run initialState demoOps) 99 ≠ defaultEvent := by
  refine ⟨rfl, rfl, by decide⟩

/-- C10 as amended: for every event_id with no binding in the events map,
get_rsvp does not fail: the lookup performs no existence check and returns
the zero-initialized record (unique_id 0, max_capacity 0, deposit 0,
num_of_rsvps 0, zero owner, empty name), and the state is unchanged. -/
theorem get_rsvp_missing_key_default (s : RegistryState) (eid : Nat)
    (h : ∀ p ∈ s.events, p.1 ≠ eid) :
    get_rsvp s eid = defaultEvent ∧ step s (Op.getOp eid) = s :=
  ⟨mapGet_eq_default s.events eid h, rfl⟩

/-- Witness for amended C10: after one create_event only key 0 is bound, so
get_rsvp(5) returns the zeroed record and changes nothing. -/
theorem get_rsvp_missing_key_default_witness :
    get_rsvp demoState1 5 = defaultEvent ∧
    step demoState1 (Op.getOp 5) = demoState1 :=
  get_rsvp_missing_key_default demoState1 5 (by decide)
